import Mathlib

/-!
Shallow embedding of the seed-to-address resolver from the account-creation
modal (`Create.tsx`): the functions `deriveValidate`, `isHexSeed`,
`rawValidate`, `addressFromSeed`, `newSeed`, `generateSeed` and
`updateAddress`, together with the `AddressState` record they produce.

External cryptographic collaborators (`keyExtractSuri`, `mnemonicValidate`,
`keyring.createFromUri`, `mnemonicGenerate`, `randomAsU8a`/`u8aToHex`,
`DEV_PHRASE`) are modelled as fields of a `CryptoEnv` parameter: fallible
ones return `Except String`, carrying the message of the thrown error, and
the two random draws are modelled as the values sampled for the call.
-/

/-- Kind of seed entry, source `type SeedType = 'bip' | 'raw' | 'dev'`. -/
inductive SeedType where
  | bip
  | raw
  | dev
deriving DecidableEq, Repr

/-- Keypair algorithm tag, source `KeypairType` from `@polkadot/util-crypto`. -/
inductive KeypairType where
  | ed25519
  | sr25519
deriving DecidableEq, Repr

/-- One segment of a parsed derivation path, source junction objects returned
by `keyExtractSuri` (only the `isSoft` flag is consulted by this code). -/
structure Junction where
  isSoft : Bool
deriving DecidableEq, Repr

/-- Source `interface AddressState`. `string | null` fields become
`Option String`. -/
structure AddressState where
  address : Option String
  deriveError : Option String
  derivePath : String
  isSeedValid : Bool
  pairType : KeypairType
  seed : String
  seedType : SeedType
deriving DecidableEq, Repr

/-- The external collaborators imported by the module, as one record:
`keyExtractSuri` (throws on a malformed suri, modelled as `Except.error`
carrying the message), `mnemonicValidate`, `keyring.createFromUri`
(throws on failure; returns the `.address` of the created pair),
the mnemonic drawn by `mnemonicGenerate()`, the hex rendering
`u8aToHex(randomAsU8a())` of the random bytes drawn, and the constant
`DEV_PHRASE`. -/
structure CryptoEnv where
  keyExtractSuri : String → Except String (List Junction)
  mnemonicValidate : String → Bool
  createFromUri : String → KeypairType → Except String String
  mnemonicGenerate : String
  randomHex : String
  devPhrase : String

/-- Source `const DEFAULT_PAIR_TYPE = 'sr25519'`. -/
def DEFAULT_PAIR_TYPE : KeypairType := KeypairType.sr25519

/-- JavaScript truthiness test `!x` for a `string | null` value: `null` and
the empty string are falsy. -/
def jsFalsy : Option String → Bool
  | none => true
  | some s => s == ""

/-- JavaScript `a || b` for `a : string | null | undefined`: `b` when `a` is
nullish or the empty string, otherwise `a`. -/
def jsOrElse (a : Option String) (b : String) : String :=
  match a with
  | some s => if s == "" then b else s
  | none => b

/-- Whitespace as removed by JavaScript `String.prototype.trim`. -/
def isJsWhitespace (c : Char) : Bool :=
  c == ' ' || c == '\t' || c == '\n' || c == '\r' ||
  c == '\x0b' || c == '\x0c' || c == '\u00A0' || c == '\uFEFF'

/-- JavaScript `String.prototype.trim` on the character list: drop leading
and trailing whitespace. -/
def jsTrimList (l : List Char) : List Char :=
  List.rdropWhile isJsWhitespace (List.dropWhile isJsWhitespace l)

/-- JavaScript `String.prototype.trim`. -/
def jsTrim (s : String) : String :=
  String.mk (jsTrimList s.data)

/-- Source `deriveValidate`: parse `` `${seed}${derivePath}` ``; a parse
failure is caught and its message returned; soft path segments are rejected
for ed25519; otherwise `null`. -/
def deriveValidate (env : CryptoEnv) (seed derivePath : String)
    (pairType : KeypairType) : Option String :=
  match env.keyExtractSuri (seed ++ derivePath) with
  | Except.error e => some e
  | Except.ok path =>
    if pairType == KeypairType.ed25519 && path.any (fun j => j.isSoft) then
      some "Soft derivation paths are not allowed on ed25519"
    else
      none

/-- Model of the external `isHex` from `@polkadot/util`: the string matches
`/^0x[a-fA-F0-9]+$/`. -/
def isHexChar (c : Char) : Bool :=
  ('0' ≤ c && c ≤ '9') || ('a' ≤ c && c ≤ 'f') || ('A' ≤ c && c ≤ 'F')

/-- Model of the external `isHex` from `@polkadot/util`: a `0x`-prefixed
string of at least one hexadecimal digit. -/
def isHex (s : String) : Bool :=
  match s.data with
  | '0' :: 'x' :: rest => !rest.isEmpty && rest.all isHexChar
  | _ => false

/-- Source `isHexSeed`: `isHex(seed) && seed.length === 66`. -/
def isHexSeed (seed : String) : Bool :=
  isHex seed && seed.length == 66

/-- Source `rawValidate`:
`((seed.length > 0) && (seed.length <= 32)) || isHexSeed(seed)`. -/
def rawValidate (seed : String) : Bool :=
  (decide (0 < seed.length) && decide (seed.length ≤ 32)) || isHexSeed seed

/-- Source `addressFromSeed`:
`keyring.createFromUri(`` `${phrase.trim()}${derivePath}` ``, {}, pairType).address`.
The external `createFromUri` may throw, hence `Except`. -/
def addressFromSeed (env : CryptoEnv) (phrase derivePath : String)
    (pairType : KeypairType) : Except String String :=
  env.createFromUri (jsTrim phrase ++ derivePath) pairType

/-- Source `newSeed`: a fresh mnemonic for `bip`, `DEV_PHRASE` for `dev`,
and `seed || u8aToHex(randomAsU8a())` in the default (`raw`) case. -/
def newSeed (env : CryptoEnv) (seed : Option String) (seedType : SeedType) : String :=
  match seedType with
  | SeedType.bip => env.mnemonicGenerate
  | SeedType.dev => env.devPhrase
  | SeedType.raw => jsOrElse seed env.randomHex

/-- Source `generateSeed`: draw the seed with `newSeed`, compute the address
(whose failure is not caught here and so propagates), and return the filled
`AddressState`. -/
def generateSeed (env : CryptoEnv) (_seed : Option String) (derivePath : String)
    (seedType : SeedType) (pairType : KeypairType) : Except String AddressState :=
  let seed := newSeed env _seed seedType
  match addressFromSeed env seed derivePath pairType with
  | Except.error e => Except.error e
  | Except.ok address =>
    Except.ok { address := some address, deriveError := none,
                derivePath := derivePath, isSeedValid := true,
                pairType := pairType, seedType := seedType, seed := seed }

/-- Source `updateAddress`: validate the path, validate the seed
(`rawValidate` for `raw`, `mnemonicValidate` otherwise), and when
`!deriveError && isSeedValid` attempt the address computation, catching its
failure by clearing `isSeedValid`. -/
def updateAddress (env : CryptoEnv) (seed derivePath : String)
    (seedType : SeedType) (pairType : KeypairType) : AddressState :=
  let deriveError := deriveValidate env seed derivePath pairType
  let isSeedValid := if seedType = SeedType.raw then rawValidate seed
                     else env.mnemonicValidate seed
  if jsFalsy deriveError && isSeedValid then
    match addressFromSeed env seed derivePath pairType with
    | Except.ok a =>
      { address := some a, deriveError := deriveError, derivePath := derivePath,
        isSeedValid := isSeedValid, pairType := pairType, seed := seed,
        seedType := seedType }
    | Except.error _ =>
      { address := none, deriveError := deriveError, derivePath := derivePath,
        isSeedValid := false, pairType := pairType, seed := seed,
        seedType := seedType }
  else
    { address := none, deriveError := deriveError, derivePath := derivePath,
      isSeedValid := isSeedValid, pairType := pairType, seed := seed,
      seedType := seedType }

/-- Suffix test on strings, by character list (used only by the concrete
test environments below). -/
def strEndsWith (s tail : String) : Bool :=
  List.isSuffixOf tail.data s.data

/-- The modelled external parser only throws errors with a non-empty
message, as the concrete `keyExtractSuri` of `@polkadot/util-crypto` does. -/
def ParseErrorsNonempty (env : CryptoEnv) : Prop :=
  ∀ u e, env.keyExtractSuri u = Except.error e → e ≠ ""

/-- Concrete environment used to exercise the definitions: a suri ending in
"/s" parses to one soft junction, one ending in "//err" fails to parse, any
other parses to no junctions; `createFromUri` echoes the suri as the
address. -/
def testEnv : CryptoEnv where
  keyExtractSuri := fun u =>
    if strEndsWith u "/s" then Except.ok [{ isSoft := true }]
    else if strEndsWith u "//err" then Except.error "Unable to parse"
    else Except.ok []
  mnemonicValidate := fun s => s == "legal winner thank"
  createFromUri := fun u _ => Except.ok u
  mnemonicGenerate := "gen seed"
  randomHex := "0xrand"
  devPhrase := "dev seed"

/-- Concrete environment whose address computation always fails. -/
def failEnv : CryptoEnv where
  keyExtractSuri := fun _ => Except.ok []
  mnemonicValidate := fun _ => true
  createFromUri := fun _ _ => Except.error "createFromUri failed"
  mnemonicGenerate := "gen seed"
  randomHex := "0xrand"
  devPhrase := "dev seed"

/-- Copy of `testEnv` with different entropy draws, for determinism tests. -/
def testEnv2 : CryptoEnv :=
  { testEnv with mnemonicGenerate := "other gen", randomHex := "0xother",
                 devPhrase := "other dev" }

/-- The `AddressState` produced by `generateSeed testEnv none "" dev sr25519`. -/
def devRes : AddressState :=
  { address := some "dev seed", deriveError := none, derivePath := "",
    isSeedValid := true, pairType := KeypairType.sr25519, seed := "dev seed",
    seedType := SeedType.dev }

/-- The `AddressState` produced by
`generateSeed testEnv (some "ab") "" raw sr25519`. -/
def rawRes : AddressState :=
  { address := some "ab", deriveError := none, derivePath := "",
    isSeedValid := true, pairType := KeypairType.sr25519, seed := "ab",
    seedType := SeedType.raw }

theorem testEnv_wf : ParseErrorsNonempty testEnv := by
  intro u e h
  simp only [testEnv] at h
  split at h
  · simp at h
  · split at h
    · injection h with h2
      intro he
      rw [he] at h2
      simp at h2
    · simp at h

theorem dropWhile_head_false (p : Char → Bool) (l : List Char) (a : Char)
    (as : List Char) (h : List.dropWhile p l = a :: as) : p a = false := by
  induction l with
  | nil => simp [List.dropWhile] at h
  | cons b bs ih =>
    rw [List.dropWhile_cons] at h
    by_cases hb : p b
    · rw [if_pos hb] at h
      exact ih h
    · rw [if_neg hb] at h
      injection h with h1 h2
      rw [← h1]
      exact Bool.eq_false_iff.mpr hb

theorem jsTrimList_idem (l : List Char) : jsTrimList (jsTrimList l) = jsTrimList l := by
  unfold jsTrimList
  have hdw : List.dropWhile isJsWhitespace
      (List.rdropWhile isJsWhitespace (List.dropWhile isJsWhitespace l)) =
      List.rdropWhile isJsWhitespace (List.dropWhile isJsWhitespace l) := by
    cases hr : List.rdropWhile isJsWhitespace (List.dropWhile isJsWhitespace l) with
    | nil => rfl
    | cons a as =>
      have hpre : (a :: as) <+: List.dropWhile isJsWhitespace l := by
        rw [← hr]
        exact List.rdropWhile_prefix isJsWhitespace (List.dropWhile isJsWhitespace l)
      obtain ⟨t, ht⟩ := hpre
      have hda : List.dropWhile isJsWhitespace l = a :: (as ++ t) := by
        rw [← ht]
        rfl
      have hpa : isJsWhitespace a = false :=
        dropWhile_head_false isJsWhitespace l a (as ++ t) hda
      rw [List.dropWhile_cons, hpa]
      simp
  rw [hdw, List.rdropWhile_idempotent]

theorem jsTrim_idem (s : String) : jsTrim (jsTrim s) = jsTrim s :=
  congrArg String.mk (jsTrimList_idem s.data)

theorem updateAddress_of_cond_false (env : CryptoEnv) (s dp : String)
    (st : SeedType) (pt : KeypairType)
    (h : (jsFalsy (deriveValidate env s dp pt) &&
          (if st = SeedType.raw then rawValidate s else env.mnemonicValidate s)) = false) :
    updateAddress env s dp st pt =
      { address := none, deriveError := deriveValidate env s dp pt, derivePath := dp,
        isSeedValid := (if st = SeedType.raw then rawValidate s
                        else env.mnemonicValidate s),
        pairType := pt, seed := s, seedType := st } := by
  simp [updateAddress, h]

theorem updateAddress_of_cond_true_ok (env : CryptoEnv) (s dp : String)
    (st : SeedType) (pt : KeypairType) (a : String)
    (hc : (jsFalsy (deriveValidate env s dp pt) &&
          (if st = SeedType.raw then rawValidate s else env.mnemonicValidate s)) = true)
    (ha : addressFromSeed env s dp pt = Except.ok a) :
    updateAddress env s dp st pt =
      { address := some a, deriveError := deriveValidate env s dp pt, derivePath := dp,
        isSeedValid := (if st = SeedType.raw then rawValidate s
                        else env.mnemonicValidate s),
        pairType := pt, seed := s, seedType := st } := by
  simp [updateAddress, hc, ha]

theorem updateAddress_of_cond_true_error (env : CryptoEnv) (s dp : String)
    (st : SeedType) (pt : KeypairType) (e : String)
    (hc : (jsFalsy (deriveValidate env s dp pt) &&
          (if st = SeedType.raw then rawValidate s else env.mnemonicValidate s)) = true)
    (ha : addressFromSeed env s dp pt = Except.error e) :
    updateAddress env s dp st pt =
      { address := none, deriveError := deriveValidate env s dp pt, derivePath := dp,
        isSeedValid := false, pairType := pt, seed := s, seedType := st } := by
  simp [updateAddress, hc, ha]

theorem updateAddress_deriveError_eq (env : CryptoEnv) (s dp : String)
    (st : SeedType) (pt : KeypairType) :
    (updateAddress env s dp st pt).deriveError = deriveValidate env s dp pt := by
  by_cases hc : (jsFalsy (deriveValidate env s dp pt) &&
      (if st = SeedType.raw then rawValidate s else env.mnemonicValidate s)) = true
  · cases hA : addressFromSeed env s dp pt with
    | ok a => rw [updateAddress_of_cond_true_ok env s dp st pt a hc hA]
    | error e => rw [updateAddress_of_cond_true_error env s dp st pt e hc hA]
  · rw [updateAddress_of_cond_false env s dp st pt (Bool.eq_false_iff.mpr hc)]

theorem deriveValidate_some_ne (env : CryptoEnv) (s dp : String) (pt : KeypairType)
    (hwf : ParseErrorsNonempty env) (m : String)
    (h : deriveValidate env s dp pt = some m) : m ≠ "" := by
  unfold deriveValidate at h
  split at h
  next e heq =>
    injection h with h2
    rw [← h2]
    exact hwf _ _ heq
  next path heq =>
    split at h
    · injection h with h2
      rw [← h2]
      decide
    · exact absurd h (by simp)

theorem jsFalsy_deriveValidate (env : CryptoEnv) (s dp : String) (pt : KeypairType)
    (hwf : ParseErrorsNonempty env) :
    jsFalsy (deriveValidate env s dp pt) = (deriveValidate env s dp pt).isNone := by
  cases h : deriveValidate env s dp pt with
  | none => rfl
  | some m =>
    have hm : m ≠ "" := deriveValidate_some_ne env s dp pt hwf m h
    simp [jsFalsy, hm]

theorem updateAddress_address_some (env : CryptoEnv) (s dp : String)
    (st : SeedType) (pt : KeypairType) (a : String)
    (h : (updateAddress env s dp st pt).address = some a) :
    jsFalsy (deriveValidate env s dp pt) = true ∧
    (if st = SeedType.raw then rawValidate s else env.mnemonicValidate s) = true ∧
    addressFromSeed env s dp pt = Except.ok a := by
  by_cases hc : (jsFalsy (deriveValidate env s dp pt) &&
      (if st = SeedType.raw then rawValidate s else env.mnemonicValidate s)) = true
  · cases hA : addressFromSeed env s dp pt with
    | ok b =>
      rw [updateAddress_of_cond_true_ok env s dp st pt b hc hA] at h
      injection h with h2
      exact ⟨(Bool.and_eq_true _ _).mp hc |>.1, (Bool.and_eq_true _ _).mp hc |>.2,
             by rw [h2]⟩
    | error e =>
      rw [updateAddress_of_cond_true_error env s dp st pt e hc hA] at h
      simp at h
  · rw [updateAddress_of_cond_false env s dp st pt (Bool.eq_false_iff.mpr hc)] at h
    simp at h

/-- C1: neither operation ever returns an `AddressState` holding both a
present address and a present derivation error (for the environments whose
parse errors carry non-empty messages, as the real library's do). -/
theorem resolvedAddress_invariant (env : CryptoEnv) (s dp : String) (st : SeedType)
    (pt : KeypairType) (hwf : ParseErrorsNonempty env) :
    (¬((updateAddress env s dp st pt).address ≠ none ∧
       (updateAddress env s dp st pt).deriveError ≠ none)) ∧
    ∀ sd r, generateSeed env sd dp st pt = Except.ok r →
      ¬(r.address ≠ none ∧ r.deriveError ≠ none) := by
  constructor
  · rintro ⟨ha, he⟩
    rw [updateAddress_deriveError_eq] at he
    obtain ⟨m, hm⟩ := Option.ne_none_iff_exists'.mp he
    have hm' : m ≠ "" := deriveValidate_some_ne env s dp pt hwf m hm
    have hcond : (jsFalsy (deriveValidate env s dp pt) &&
        (if st = SeedType.raw then rawValidate s else env.mnemonicValidate s)) = false := by
      rw [hm]
      simp [jsFalsy, hm']
    rw [updateAddress_of_cond_false env s dp st pt hcond] at ha
    exact ha rfl
  · intro sd r h
    rintro ⟨_, he⟩
    simp only [generateSeed] at h
    split at h
    · exact absurd h (by simp)
    · injection h with h2
      rw [← h2] at he
      exact he rfl

/-- C1 witness: concrete instance of the invariant at `testEnv`. -/
theorem resolvedAddress_invariant_witness :
    (¬((updateAddress testEnv "ab" "" SeedType.raw KeypairType.sr25519).address ≠ none ∧
       (updateAddress testEnv "ab" "" SeedType.raw KeypairType.sr25519).deriveError ≠ none)) ∧
    ¬(rawRes.address ≠ none ∧ rawRes.deriveError ≠ none) :=
  ⟨(resolvedAddress_invariant testEnv "ab" "" SeedType.raw KeypairType.sr25519 testEnv_wf).1,
   (resolvedAddress_invariant testEnv "ab" "" SeedType.raw KeypairType.sr25519 testEnv_wf).2
     (some "ab") rawRes rfl⟩

/-- C2: with algorithm ed25519 and a derivation path whose parse contains a
soft junction, `updateAddress` reports the fixed soft-derivation error and a
null address. -/
theorem updateAddress_ed25519_soft (env : CryptoEnv) (s dp : String) (st : SeedType)
    (path : List Junction)
    (h1 : env.keyExtractSuri (s ++ dp) = Except.ok path)
    (h2 : path.any (fun j => j.isSoft) = true) :
    (updateAddress env s dp st KeypairType.ed25519).deriveError =
      some "Soft derivation paths are not allowed on ed25519" ∧
    (updateAddress env s dp st KeypairType.ed25519).address = none := by
  have hd : deriveValidate env s dp KeypairType.ed25519 =
      some "Soft derivation paths are not allowed on ed25519" := by
    unfold deriveValidate
    rw [h1]
    simp [h2]
  have hfalse : jsFalsy (some "Soft derivation paths are not allowed on ed25519") = false := by
    decide
  have hcond : (jsFalsy (deriveValidate env s dp KeypairType.ed25519) &&
      (if st = SeedType.raw then rawValidate s else env.mnemonicValidate s)) = false := by
    rw [hd, hfalse, Bool.false_and]
  constructor
  · rw [updateAddress_deriveError_eq, hd]
  · rw [updateAddress_of_cond_false env s dp st KeypairType.ed25519 hcond]

/-- C2 witness: a path parsing to one soft junction under `testEnv`. -/
theorem updateAddress_ed25519_soft_witness :
    (updateAddress testEnv "ab" "/s" SeedType.raw KeypairType.ed25519).deriveError =
      some "Soft derivation paths are not allowed on ed25519" ∧
    (updateAddress testEnv "ab" "/s" SeedType.raw KeypairType.ed25519).address = none :=
  updateAddress_ed25519_soft testEnv "ab" "/s" SeedType.raw [{ isSoft := true }] rfl rfl

/-- C3: `rawValidate` accepts exactly the strings of length 1 to 32 and the
0x-prefixed 66-character hexadecimal strings, and rejects every other
string. -/
theorem rawValidate_iff (s : String) :
    rawValidate s = true ↔
      (1 ≤ s.length ∧ s.length ≤ 32) ∨ (isHex s = true ∧ s.length = 66) := by
  unfold rawValidate isHexSeed
  simp [Bool.or_eq_true, Bool.and_eq_true, Nat.succ_le_iff]

/-- C4: `updateAddress` surfaces both failure kinds as data: a parse failure
of the external `keyExtractSuri` becomes the `deriveError` message, and a
failure of the address computation clears `isSeedValid` while keeping the
address null; the function itself is total (it returns an `AddressState` for
every input rather than an error). -/
theorem updateAddress_error_as_data (env : CryptoEnv) (s dp : String) (st : SeedType)
    (pt : KeypairType) :
    (∀ e, env.keyExtractSuri (s ++ dp) = Except.error e →
      (updateAddress env s dp st pt).deriveError = some e) ∧
    (∀ e, jsFalsy (deriveValidate env s dp pt) = true →
      (if st = SeedType.raw then rawValidate s else env.mnemonicValidate s) = true →
      addressFromSeed env s dp pt = Except.error e →
      (updateAddress env s dp st pt).isSeedValid = false ∧
      (updateAddress env s dp st pt).address = none) := by
  constructor
  · intro e he
    rw [updateAddress_deriveError_eq]
    unfold deriveValidate
    rw [he]
  · intro e h1 h2 h3
    have hcond : (jsFalsy (deriveValidate env s dp pt) &&
        (if st = SeedType.raw then rawValidate s else env.mnemonicValidate s)) = true := by
      rw [h1, h2]
      rfl
    rw [updateAddress_of_cond_true_error env s dp st pt e hcond h3]
    exact ⟨rfl, rfl⟩

/-- C4 witness: a failing parse under `testEnv` and a failing address
computation under `failEnv`, both surfaced as data. -/
theorem updateAddress_error_as_data_witness :
    (updateAddress testEnv "ab" "//err" SeedType.raw KeypairType.sr25519).deriveError =
      some "Unable to parse" ∧
    ((updateAddress failEnv "ab" "" SeedType.raw KeypairType.sr25519).isSeedValid = false ∧
     (updateAddress failEnv "ab" "" SeedType.raw KeypairType.sr25519).address = none) :=
  ⟨(updateAddress_error_as_data testEnv "ab" "//err" SeedType.raw KeypairType.sr25519).1
     "Unable to parse" rfl,
   (updateAddress_error_as_data failEnv "ab" "" SeedType.raw KeypairType.sr25519).2
     "createFromUri failed" rfl rfl rfl⟩

/-- C5 counterexample: with the raw seed kind, two `generateSeed` calls in
the same environment differing only in the provided seed argument return
different seed values, neither being the environment's random draw — so the
produced seed is not determined by the seed kind alone. -/
theorem generateSeed_counterexample :
    Except.map AddressState.seed
        (generateSeed testEnv (some "abc") "" SeedType.raw KeypairType.sr25519) =
      Except.ok "abc" ∧
    Except.map AddressState.seed
        (generateSeed testEnv (some "xyz") "" SeedType.raw KeypairType.sr25519) =
      Except.ok "xyz" ∧
    ("abc" : String) ≠ "xyz" ∧ ("abc" : String) ≠ testEnv.randomHex :=
  ⟨rfl, rfl, by decide, by decide⟩

/-- C5 (amended): every successful `generateSeed` returns `deriveError`
null, `isSeedValid` true, a present address, and the seed drawn by `newSeed`
from the seed kind and the optionally provided seed; for non-raw kinds the
seed does not depend on the provided seed argument. -/
theorem generateSeed_resolved (env : CryptoEnv) (sd : Option String) (dp : String)
    (st : SeedType) (pt : KeypairType) (r : AddressState)
    (h : generateSeed env sd dp st pt = Except.ok r) :
    r.deriveError = none ∧ r.isSeedValid = true ∧ r.address ≠ none ∧
    r.derivePath = dp ∧ r.seed = newSeed env sd st ∧
    (st ≠ SeedType.raw → r.seed = newSeed env none st) := by
  simp only [generateSeed] at h
  split at h
  · exact absurd h (by simp)
  · injection h with h2
    rw [← h2]
    refine ⟨rfl, rfl, by simp, rfl, rfl, ?_⟩
    intro hraw
    cases st with
    | bip => rfl
    | dev => rfl
    | raw => exact absurd rfl hraw

/-- C5 witness: the development-kind generation under `testEnv`. -/
theorem generateSeed_resolved_witness :
    devRes.deriveError = none ∧ devRes.isSeedValid = true ∧ devRes.address ≠ none ∧
    devRes.derivePath = "" ∧ devRes.seed = newSeed testEnv none SeedType.dev ∧
    (SeedType.dev ≠ SeedType.raw → devRes.seed = newSeed testEnv none SeedType.dev) :=
  generateSeed_resolved testEnv none "" SeedType.dev KeypairType.sr25519 devRes rfl

/-- C6: whenever `updateAddress` reports a derivation error, the returned
`isSeedValid` is exactly the independent seed-validity check (`rawValidate`
for raw seeds, mnemonic validation otherwise), so both signals are carried
together (environments with non-empty parse error messages). -/
theorem isSeedValid_independent (env : CryptoEnv) (s dp : String) (st : SeedType)
    (pt : KeypairType) (m : String) (hwf : ParseErrorsNonempty env)
    (h : (updateAddress env s dp st pt).deriveError = some m) :
    (updateAddress env s dp st pt).isSeedValid =
      (if st = SeedType.raw then rawValidate s else env.mnemonicValidate s) := by
  rw [updateAddress_deriveError_eq] at h
  have hm : m ≠ "" := deriveValidate_some_ne env s dp pt hwf m h
  have hcond : (jsFalsy (deriveValidate env s dp pt) &&
      (if st = SeedType.raw then rawValidate s else env.mnemonicValidate s)) = false := by
    rw [h]
    simp [jsFalsy, hm]
  rw [updateAddress_of_cond_false env s dp st pt hcond]

/-- C6 witness: a failing parse with a valid raw seed under `testEnv`. -/
theorem isSeedValid_independent_witness :
    (updateAddress testEnv "ab" "//err" SeedType.raw KeypairType.sr25519).isSeedValid =
      (if SeedType.raw = SeedType.raw then rawValidate "ab"
       else testEnv.mnemonicValidate "ab") :=
  isSeedValid_independent testEnv "ab" "//err" SeedType.raw KeypairType.sr25519
    "Unable to parse" testEnv_wf rfl

/-- C7: a present address implies a null derivation error and a true
`isSeedValid`, for the results of both operations (environments with
non-empty parse error messages). -/
theorem address_present_implies_valid (env : CryptoEnv) (s dp : String)
    (st : SeedType) (pt : KeypairType) (hwf : ParseErrorsNonempty env) :
    ((updateAddress env s dp st pt).address ≠ none →
      (updateAddress env s dp st pt).deriveError = none ∧
      (updateAddress env s dp st pt).isSeedValid = true) ∧
    ∀ sd r, generateSeed env sd dp st pt = Except.ok r →
      r.address ≠ none ∧ r.deriveError = none ∧ r.isSeedValid = true := by
  constructor
  · intro ha
    obtain ⟨a, ha2⟩ := Option.ne_none_iff_exists'.mp ha
    obtain ⟨h1, h2, h3⟩ := updateAddress_address_some env s dp st pt a ha2
    have hd : deriveValidate env s dp pt = none := by
      have hiso := jsFalsy_deriveValidate env s dp pt hwf
      rw [h1] at hiso
      cases hd2 : deriveValidate env s dp pt with
      | none => rfl
      | some m =>
        rw [hd2] at hiso
        simp at hiso
    have hcond : (jsFalsy (deriveValidate env s dp pt) &&
        (if st = SeedType.raw then rawValidate s else env.mnemonicValidate s)) = true := by
      rw [h1, h2]
      rfl
    rw [updateAddress_of_cond_true_ok env s dp st pt a hcond h3]
    exact ⟨hd, h2⟩
  · intro sd r h
    simp only [generateSeed] at h
    split at h
    · exact absurd h (by simp)
    · injection h with h2
      rw [← h2]
      exact ⟨by simp, rfl, rfl⟩

/-- C7 witness: concrete instance at `testEnv`. -/
theorem address_present_implies_valid_witness :
    ((updateAddress testEnv "ab" "" SeedType.raw KeypairType.sr25519).deriveError = none ∧
     (updateAddress testEnv "ab" "" SeedType.raw KeypairType.sr25519).isSeedValid = true) ∧
    (rawRes.address ≠ none ∧ rawRes.deriveError = none ∧ rawRes.isSeedValid = true) :=
  ⟨(address_present_implies_valid testEnv "ab" "" SeedType.raw KeypairType.sr25519
      testEnv_wf).1 (by decide),
   (address_present_implies_valid testEnv "ab" "" SeedType.raw KeypairType.sr25519
      testEnv_wf).2 (some "ab") rawRes rfl⟩

/-- C8: with the development seed kind, every successful `generateSeed`
returns the fixed development phrase as the seed, whatever the other
arguments are. -/
theorem generateSeed_dev_fixed (env : CryptoEnv) (sd : Option String) (dp : String)
    (pt : KeypairType) (r : AddressState)
    (h : generateSeed env sd dp SeedType.dev pt = Except.ok r) :
    r.seed = env.devPhrase := by
  simp only [generateSeed, newSeed] at h
  split at h
  · exact absurd h (by simp)
  · injection h with h2
    rw [← h2]

/-- C8 witness: the development-kind generation under `testEnv`. -/
theorem generateSeed_dev_fixed_witness : devRes.seed = testEnv.devPhrase :=
  generateSeed_dev_fixed testEnv none "" KeypairType.sr25519 devRes rfl

/-- C9: `updateAddress` is deterministic — two environments agreeing on the
deterministic library functions (and so possibly differing in their entropy
draws) give identical results on identical inputs. -/
theorem updateAddress_deterministic (env env2 : CryptoEnv) (s dp : String)
    (st : SeedType) (pt : KeypairType)
    (h1 : env2.keyExtractSuri = env.keyExtractSuri)
    (h2 : env2.mnemonicValidate = env.mnemonicValidate)
    (h3 : env2.createFromUri = env.createFromUri) :
    updateAddress env2 s dp st pt = updateAddress env s dp st pt := by
  simp only [updateAddress, deriveValidate, addressFromSeed, h1, h2, h3]

/-- C9 witness: `testEnv2` redraws all entropy of `testEnv` yet resolves
identically. -/
theorem updateAddress_deterministic_witness :
    updateAddress testEnv2 "abc" "" SeedType.raw KeypairType.sr25519 =
      updateAddress testEnv "abc" "" SeedType.raw KeypairType.sr25519 :=
  updateAddress_deterministic testEnv testEnv2 "abc" "" SeedType.raw KeypairType.sr25519
    rfl rfl rfl

/-- C10: the address computation trims the seed (deriving from the trimmed
seed yields the same address), while the validity check of `updateAddress`
runs on the untrimmed seed: a raw seed that validates as given and whose
trimmed form derives an address yields that trimmed-seed address. -/
theorem addressFromSeed_trims (env : CryptoEnv) (s dp : String) (pt : KeypairType) :
    addressFromSeed env s dp pt = addressFromSeed env (jsTrim s) dp pt ∧
    ∀ a, rawValidate s = true → deriveValidate env s dp pt = none →
      env.createFromUri (jsTrim s ++ dp) pt = Except.ok a →
      (updateAddress env s dp SeedType.raw pt).address = some a ∧
      (updateAddress env s dp SeedType.raw pt).isSeedValid = true := by
  constructor
  · unfold addressFromSeed
    rw [jsTrim_idem]
  · intro a hraw hd hc
    have hcond : (jsFalsy (deriveValidate env s dp pt) &&
        (if SeedType.raw = SeedType.raw then rawValidate s
         else env.mnemonicValidate s)) = true := by
      rw [hd]
      simp [jsFalsy, hraw]
    rw [updateAddress_of_cond_true_ok env s dp SeedType.raw pt a hcond hc]
    refine ⟨rfl, ?_⟩
    simp [hraw]

/-- C10 witness: the whitespace-padded raw seed " ab" validates untrimmed
and derives the address of the trimmed seed "ab" under `testEnv`. -/
theorem addressFromSeed_trims_witness :
    (addressFromSeed testEnv " ab" "" KeypairType.sr25519 =
      addressFromSeed testEnv (jsTrim " ab") "" KeypairType.sr25519) ∧
    ((updateAddress testEnv " ab" "" SeedType.raw KeypairType.sr25519).address =
      some "ab" ∧
     (updateAddress testEnv " ab" "" SeedType.raw KeypairType.sr25519).isSeedValid =
      true) :=
  ⟨(addressFromSeed_trims testEnv " ab" "" KeypairType.sr25519).1,
   (addressFromSeed_trims testEnv " ab" "" KeypairType.sr25519).2 "ab" rfl rfl rfl⟩
